import Mathlib

/-!
Shallow embedding of `src/querynator/query_api/cgi/cgi_api.py`.

The module is a sequential HTTP pipeline: prepare a TSV upload file, submit it
to the CGI web service, poll a log endpoint for a completion marker, download
the result archive, extract it and write a metadata file.

Modelling conventions:
* The network is an oracle: each request's outcome (`ReqResult`) is a parameter
  (for the poll loop, a function from the request index to its outcome).
* Python exceptions are values of `PyExn`; a function that can raise returns
  `Except PyExn α`.  `SystemExit` subclasses `BaseException`, not `Exception`,
  which matters for the `except Exception` clause in `download_cgi`.
* Observable actions (requests issued, sleeps, console prints, file writes)
  are recorded in an event trace `List Event`.
* The filesystem is an association list from path to content.
* `pd.read_csv` is absorbed: the input table arrives already parsed as a
  `DataFrame` (header row plus data rows).  `headers`, `logger` and the
  `cancer` object carry no control-flow and are absorbed into the oracle,
  except that `logger.info` messages appear in the trace.
-/

namespace CgiApi

/-- Python exception values relevant to the embedded code.  `systemExit`
models `SystemExit`, which subclasses `BaseException` rather than
`Exception`; all other constructors model `Exception` subclasses. -/
inductive PyExn where
  | httpError (msg : String)
  | netError (msg : String)
  | jsonError (msg : String)
  | fileNotFound (path : String)
  | systemExit (msg : String)
  | other (msg : String)
deriving DecidableEq, Repr

/-- `e` is an instance of Python's `Exception` class (everything here except
`SystemExit`), hence caught by a bare `except Exception` clause. -/
def PyExn.isException : PyExn → Bool
  | .systemExit _ => false
  | _ => true

/-- `e` is an instance of `requests.exceptions.HTTPError`. -/
def PyExn.isHTTPError : PyExn → Bool
  | .httpError _ => true
  | _ => false

/-- Outcome of one `requests.get` / `requests.post` call: either the call
itself raised, or a response arrived with a status code and a body (already
run through the relevant parsing: `β` is the type `r.json()` / `r._content`
yields, with `Except String _` when parsing itself can fail). -/
inductive ReqResult (β : Type) where
  | exn (e : PyExn)
  | conn (status : Nat) (body : β)
deriving DecidableEq, Repr

/-- Observable actions of the pipeline, in program order. -/
inductive Event where
  | logInfo (msg : String)
  | mountRetryAdapter
  | postSubmit (reference : String)
  | getPoll (viaRetrySession : Bool)
  | sleep (secs : Nat)
  | consolePrint (msg : String)
  | getDownload
  | writeFile (path : String)
  | extractZip (zipPath dir : String)
deriving DecidableEq, Repr

/-- A parsed tab-separated table: the header row and the data rows. -/
structure DataFrame where
  header : List String
  rows : List (List String)
deriving DecidableEq, Repr

/-- Filesystem as an association list from path to file content. -/
abbrev FileSystem := List (String × String)

/-- Write (create or overwrite) a file. -/
def fsWrite (fs : FileSystem) (path content : String) : FileSystem :=
  (path, content) :: fs.filter (fun p => p.1 ≠ path)

/-- Does a file exist at `path`? -/
def fsHas (fs : FileSystem) (path : String) : Bool :=
  fs.any (fun p => p.1 == path)

/-- Content of the file at `path`, if present. -/
def fsRead (fs : FileSystem) (path : String) : Option String :=
  (fs.find? (fun p => p.1 == path)).map (fun p => p.2)

/-! ### `hg_assembly` -/

/-- `hg_assembly`: the two successive `if` statements reassigning `genome`. -/
def hg_assembly (genome : String) : String :=
  let genome := if genome = "GRCh37" then "hg19" else genome
  let genome := if genome = "GRCh38" then "hg38" else genome
  genome

/-! ### `prepare_cgi_query_file` -/

/-- `drop_duplicates` keeping the first occurrence of each row, with `seen`
accumulating the rows already kept. -/
def dropDuplicatesAux (seen : List (List String)) : List (List String) → List (List String)
  | [] => []
  | r :: rs =>
    if r ∈ seen then dropDuplicatesAux seen rs
    else r :: dropDuplicatesAux (r :: seen) rs

/-- `pandas.DataFrame.drop_duplicates`: remove every row equal to an earlier
row, keeping first occurrences in order. -/
def dropDuplicates (rows : List (List String)) : List (List String) :=
  dropDuplicatesAux [] rows

/-- Number of rows that exactly duplicate an earlier row (the `D` of
"N rows with D duplicates"), with `seen` the rows already encountered. -/
def dupCountAux (seen : List (List String)) : List (List String) → Nat
  | [] => 0
  | r :: rs =>
    if r ∈ seen then 1 + dupCountAux seen rs
    else dupCountAux (r :: seen) rs

/-- Number of rows of `rows` that exactly duplicate an earlier row. -/
def dupCount (rows : List (List String)) : Nat :=
  dupCountAux [] rows

/-- Serialization of a `DataFrame` by `to_csv(sep="\t", index=False)`:
tab-joined header line, then one tab-joined line per row. -/
def renderTsv (df : DataFrame) : String :=
  String.intercalate "\n"
    (String.intercalate "\t" df.header :: df.rows.map (String.intercalate "\t")) ++ "\n"

/-- The in-memory frame built by `prepare_cgi_query_file`: first five columns
(`iloc[:,:5]`), `drop_duplicates()`, then a constant `SAMPLE` column holding
the output name. -/
def prepared_frame (input : DataFrame) (output : String) : DataFrame :=
  let cgi_file : DataFrame := ⟨input.header.take 5, input.rows.map (List.take 5)⟩
  let cgi_file : DataFrame := ⟨cgi_file.header, dropDuplicates cgi_file.rows⟩
  ⟨cgi_file.header ++ ["SAMPLE"], cgi_file.rows.map (fun r => r ++ [output])⟩

/-- `prepare_cgi_query_file`: write the prepared frame to
`output + '.cgi_input.tsv'` and return the updated filesystem together with
the returned path `cgi_path`. -/
def prepare_cgi_query_file (input : DataFrame) (output : String) (fs : FileSystem) :
    FileSystem × String :=
  let cgi_path := output ++ ".cgi_input.tsv"
  (fsWrite fs cgi_path (renderTsv (prepared_frame input output)), cgi_path)

/-! ### `submit_query_cgi` -/

/-- `submit_query_cgi`: log, normalize the genome build, POST the prepared
file, `raise_for_status()`, parse the job id and build the job URL.
`resp` is the oracle outcome of the POST; its body is the result of
`r.json()` (a job-id string, or a parse failure).  The `except
requests.exceptions.HTTPError` clause converts an `HTTPError` — whether from
`raise_for_status` (status 400–599) or from the call itself — into
`SystemExit`; any other exception propagates. -/
def submit_query_cgi (genome : String) (resp : ReqResult (Except String String)) :
    List Event × Except PyExn String :=
  let events : List Event :=
    [.logInfo "Querying REST API", .postSubmit (hg_assembly genome)]
  match resp with
  | .exn e =>
    if e.isHTTPError then (events, .error (.systemExit "HTTPError"))
    else (events, .error e)
  | .conn status body =>
    if 400 ≤ status ∧ status < 600 then (events, .error (.systemExit "HTTPError"))
    else
      match body with
      | .error s => (events, .error (.jsonError s))
      | .ok job_id =>
        (events, .ok ("https://www.cancergenomeinterpreter.org/api/v1/" ++ job_id))

/-! ### `status_done` -/

/-- The completion marker searched for in the joined log lines. -/
def analysisDoneMarker : String := "Analysis done"

/-- The `while` condition `'Analysis done' in ''.join(log['logs'])`
(the loop runs while this is false). -/
def analysisDone (logs : List String) : Bool :=
  decide (analysisDoneMarker.data <:+: (String.join logs).data)

/-- The console message printed when the attempt counter reaches 5. -/
def timeoutMsg : String := "Query took too looong :-("

/-- The `while` loop of `status_done`.  The source counts retries upward in
`counter`, breaking at `counter == 5`; here `remaining = 5 - counter` counts
the same bound downward so the recursion is structural (the loop starts with
`counter = 0`, i.e. `remaining = 5`).  `pollIdx` numbers the GET requests
issued so far (the initial poll before the loop is request 0).  Each
iteration: sleep 60, GET the logs (via plain `requests.get`, hence
`getPoll false`), `raise_for_status()` (an `HTTPError` is converted to
`SystemExit` by the `except` clause), increment the counter, re-parse
`r.json()` (a parse failure is a `ValueError`, not an `HTTPError`, so it
propagates; so does any non-`HTTPError` failure of the GET itself). -/
def pollLoop (polls : Nat → ReqResult (Except String (List String))) :
    Nat → Nat → List String → List Event → List Event × Except PyExn Bool
  | 0, _pollIdx, logs, events =>
    if analysisDone logs then (events, .ok true)
    else (events ++ [.consolePrint timeoutMsg], .ok true)
  | remaining' + 1, pollIdx, logs, events =>
    if analysisDone logs then (events, .ok true)
    else
      let events := events ++ [.sleep 60, .getPoll false]
      match polls pollIdx with
      | .exn e =>
        if e.isHTTPError then (events, .error (.systemExit "HTTPError"))
        else (events, .error e)
      | .conn status body =>
        if 400 ≤ status ∧ status < 600 then (events, .error (.systemExit "HTTPError"))
        else
          match body with
          | .error s => (events, .error (.jsonError s))
          | .ok logs' => pollLoop polls remaining' (pollIdx + 1) logs' events

/-- `status_done`: build the retry-configured session and mount its adapters
(`mountRetryAdapter` — the session is bound to the local name `http` but no
request below uses it), issue the initial poll via plain `requests.get`
outside any `try` (no `raise_for_status` here: the body is parsed whatever
the status), then enter the loop. -/
def status_done (polls : Nat → ReqResult (Except String (List String))) :
    List Event × Except PyExn Bool :=
  let events : List Event := [.mountRetryAdapter, .getPoll false]
  match polls 0 with
  | .exn e => (events, .error e)
  | .conn _status body =>
    match body with
    | .error s => (events, .error (.jsonError s))
    | .ok logs => pollLoop polls 5 1 logs events

/-! ### `download_cgi` and `add_cgi_metadata` -/

/-- The console message printed by the `except Exception` clause. -/
def downloadFailMsg : String :=
  "Ooops, sth went wrong with the download. Sorry for the inconvenience."

/-- `download_cgi`: GET with `action=download` (no `raise_for_status`: the
body is written whatever the status), write `r._content` to
`output + '.cgi_results.zip'`.  `writeExn` models a failure of
`open`/`fd.write` before any content lands.  The surrounding
`try ... except Exception` catches every `Exception` and prints a message;
a `BaseException` such as `SystemExit` would escape it. -/
def download_cgi (resp : ReqResult String) (writeExn : Option PyExn)
    (output : String) (fs : FileSystem) :
    List Event × FileSystem × Except PyExn Unit :=
  let events : List Event := [.getDownload]
  match resp with
  | .exn e =>
    if e.isException then (events ++ [.consolePrint downloadFailMsg], fs, .ok ())
    else (events, fs, .error e)
  | .conn _status content =>
    match writeExn with
    | some e =>
      if e.isException then (events ++ [.consolePrint downloadFailMsg], fs, .ok ())
      else (events, fs, .error e)
    | none =>
      (events ++ [.writeFile (output ++ ".cgi_results.zip")],
       fsWrite fs (output ++ ".cgi_results.zip") content, .ok ())

/-- `add_cgi_metadata`: `ZipFile(output + '.cgi_results.zip')` raises
`FileNotFoundError` when the archive is missing; otherwise extract into
`output + '.cgi_results'` and write `metadata.txt` there, containing the two
`f.write` payloads: the date line, then `'\nAPI version: ' + url[:-20]`
(Python's `url[:-20]` is `url.take (url.length - 20)`, the empty string when
the URL has at most 20 characters).  `today` is `str(date.today())`. -/
def add_cgi_metadata (url output today : String) (fs : FileSystem) :
    List Event × Except PyExn FileSystem :=
  let zipPath := output ++ ".cgi_results.zip"
  if fsHas fs zipPath then
    let dir := output ++ ".cgi_results"
    let content := "CGI query date: " ++ today ++ "\nAPI version: "
      ++ url.take (url.length - 20)
    ([.extractZip zipPath dir, .writeFile (dir ++ "/metadata.txt")],
     .ok (fsWrite fs (dir ++ "/metadata.txt") content))
  else ([], .error (.fileNotFound zipPath))

/-! ### `query_cgi` -/

/-- The oracle for one whole run: the outcome of the submission POST, of the
nth poll GET, of the download GET, of the archive write, and today's date. -/
structure World where
  submit : ReqResult (Except String String)
  polls : Nat → ReqResult (Except String (List String))
  download : ReqResult String
  downloadWriteExn : Option PyExn
  today : String

/-- `query_cgi`: prepare the upload file, submit (a raised `SystemExit` or
other exception aborts the run), poll, log, and — under the `if done:` guard
— download and write metadata. -/
def query_cgi (w : World) (input : DataFrame) (genome output : String)
    (fs0 : FileSystem) : List Event × Except PyExn FileSystem :=
  let (fs1, cgi_path) := prepare_cgi_query_file input output fs0
  let ev0 : List Event := [.writeFile cgi_path]
  let (evS, subRes) := submit_query_cgi genome w.submit
  match subRes with
  | .error e => (ev0 ++ evS, .error e)
  | .ok url =>
    let (evP, pollRes) := status_done w.polls
    match pollRes with
    | .error e => (ev0 ++ evS ++ evP, .error e)
    | .ok done =>
      let evL : List Event := [.logInfo "CGI Query finished"]
      if done then
        let evD0 : List Event := [.logInfo "Downloading CGI results"]
        let (evD, fs2, dlRes) := download_cgi w.download w.downloadWriteExn output fs1
        match dlRes with
        | .error e => (ev0 ++ evS ++ evP ++ evL ++ evD0 ++ evD, .error e)
        | .ok _ =>
          let (evM, metaRes) := add_cgi_metadata url output w.today fs2
          match metaRes with
          | .error e => (ev0 ++ evS ++ evP ++ evL ++ evD0 ++ evD ++ evM, .error e)
          | .ok fs3 => (ev0 ++ evS ++ evP ++ evL ++ evD0 ++ evD ++ evM, .ok fs3)
      else (ev0 ++ evS ++ evP ++ evL, .ok fs1)

/-! ## Helper lemmas -/

/-- Reading back a file just written returns its content. -/
theorem fsRead_fsWrite (fs : FileSystem) (p c : String) :
    fsRead (fsWrite fs p c) p = some c := by
  simp [fsRead, fsWrite]

/-- Keeping first occurrences and counting duplicates partition the rows:
the two auxiliary accumulating functions sum to the total row count. -/
theorem dropDupAux_length (l : List (List String)) :
    ∀ seen, (dropDuplicatesAux seen l).length + dupCountAux seen l = l.length := by
  induction l with
  | nil => intro seen; rfl
  | cons r rs ih =>
    intro seen
    by_cases hr : r ∈ seen
    · have := ih seen
      simp only [dropDuplicatesAux, dupCountAux, if_pos hr, List.length_cons]
      omega
    · have := ih (r :: seen)
      simp only [dropDuplicatesAux, dupCountAux, if_neg hr, List.length_cons]
      omega

/-- If the completion marker is in the joined logs, the loop exits at once. -/
theorem pollLoop_done (polls : Nat → ReqResult (Except String (List String)))
    (r idx : Nat) (logs : List String) (ev : List Event)
    (hd : analysisDone logs = true) :
    pollLoop polls r idx logs ev = (ev, .ok true) := by
  cases r <;> simp [pollLoop, hd]

/-- When the marker is absent and the counter has reached 5 (`remaining = 0`),
the loop prints the timeout message and exits with `True`. -/
theorem pollLoop_timeout (polls : Nat → ReqResult (Except String (List String)))
    (idx : Nat) (logs : List String) (ev : List Event)
    (hnd : analysisDone logs = false) :
    pollLoop polls 0 idx logs ev = (ev ++ [.consolePrint timeoutMsg], .ok true) := by
  simp [pollLoop, hnd]

/-- One non-terminal iteration: marker absent, counter below 5, the GET
succeeds with a non-error status and parseable logs — sleep 60, poll, and
continue with the new logs. -/
theorem pollLoop_step (polls : Nat → ReqResult (Except String (List String)))
    (r idx : Nat) (logs logs' : List String) (ev : List Event) (s : Nat)
    (hnd : analysisDone logs = false) (hs : s < 400)
    (hp : polls idx = .conn s (.ok logs')) :
    pollLoop polls (r + 1) idx logs ev
      = pollLoop polls r (idx + 1) logs' (ev ++ [.sleep 60, .getPoll false]) := by
  have hcond : ¬ (400 ≤ s ∧ s < 600) := fun hc => absurd hc.1 (Nat.not_le.mpr hs)
  simp [pollLoop, hnd, hp, hcond]

/-- The loop only ever appends to the event trace. -/
theorem pollLoop_events_ext (polls : Nat → ReqResult (Except String (List String))) :
    ∀ (r idx : Nat) (logs : List String) (ev : List Event),
      ∃ t, (pollLoop polls r idx logs ev).1 = ev ++ t := by
  intro r
  induction r with
  | zero =>
    intro idx logs ev
    by_cases hd : analysisDone logs
    · exact ⟨[], by simp [pollLoop, hd]⟩
    · exact ⟨[.consolePrint timeoutMsg], by simp [pollLoop, hd]⟩
  | succ r ih =>
    intro idx logs ev
    by_cases hd : analysisDone logs
    · exact ⟨[], by simp [pollLoop, hd]⟩
    · rcases hp : polls idx with e | ⟨s, body⟩
      · by_cases he : e.isHTTPError
        · exact ⟨[.sleep 60, .getPoll false], by simp [pollLoop, hd, hp, he]⟩
        · exact ⟨[.sleep 60, .getPoll false], by simp [pollLoop, hd, hp, he]⟩
      · by_cases hc : 400 ≤ s ∧ s < 600
        · exact ⟨[.sleep 60, .getPoll false], by simp [pollLoop, hd, hp, hc]⟩
        · rcases body with msg | logs'
          · exact ⟨[.sleep 60, .getPoll false], by simp [pollLoop, hd, hp, hc]⟩
          · rcases ih (idx + 1) logs' (ev ++ [.sleep 60, .getPoll false]) with ⟨t, ht⟩
            exact ⟨[.sleep 60, .getPoll false] ++ t, by
              simp [pollLoop, hd, hp, hc, ht]⟩

/-- Every event the loop appends is a sleep, a plain (non-session) poll GET,
or the timeout message. -/
theorem pollLoop_events_subset (polls : Nat → ReqResult (Except String (List String))) :
    ∀ (r idx : Nat) (logs : List String) (ev : List Event) (x : Event),
      x ∈ (pollLoop polls r idx logs ev).1 →
      x ∈ ev ∨ x = .sleep 60 ∨ x = .getPoll false ∨ x = .consolePrint timeoutMsg := by
  intro r
  induction r with
  | zero =>
    intro idx logs ev x hx
    by_cases hd : analysisDone logs
    · simp [pollLoop, hd] at hx
      exact Or.inl hx
    · simp [pollLoop, hd] at hx
      rcases hx with hx | hx
      · exact Or.inl hx
      · exact Or.inr (Or.inr (Or.inr hx))
  | succ r ih =>
    intro idx logs ev x hx
    by_cases hd : analysisDone logs
    · simp [pollLoop, hd] at hx
      exact Or.inl hx
    · have step :
          ∀ hx' : x ∈ ev ++ [Event.sleep 60, Event.getPoll false],
            x ∈ ev ∨ x = .sleep 60 ∨ x = .getPoll false ∨ x = .consolePrint timeoutMsg := by
        intro hx'
        rcases List.mem_append.1 hx' with h | h
        · exact Or.inl h
        · simp at h
          rcases h with h | h
          · exact Or.inr (Or.inl h)
          · exact Or.inr (Or.inr (Or.inl h))
      rcases hp : polls idx with e | ⟨s, body⟩
      · by_cases he : e.isHTTPError
        · simp [pollLoop, hd, hp, he] at hx
          exact step (by simpa using hx)
        · simp [pollLoop, hd, hp, he] at hx
          exact step (by simpa using hx)
      · by_cases hc : 400 ≤ s ∧ s < 600
        · simp [pollLoop, hd, hp, hc] at hx
          exact step (by simpa using hx)
        · rcases body with msg | logs'
          · simp [pollLoop, hd, hp, hc] at hx
            exact step (by simpa using hx)
          · simp only [pollLoop, hd, hp, hc] at hx
            have hx' := hx
            simp at hx'
            rcases ih (idx + 1) logs' (ev ++ [.sleep 60, .getPoll false]) x
                (by simpa [pollLoop, hd, hp, hc] using hx) with h | h
            · exact step h
            · exact Or.inr h

/-- Whenever the loop returns normally, the returned Boolean is `true`. -/
theorem pollLoop_ok_true (polls : Nat → ReqResult (Except String (List String))) :
    ∀ (r idx : Nat) (logs : List String) (ev t : List Event) (b : Bool),
      pollLoop polls r idx logs ev = (t, .ok b) → b = true := by
  intro r
  induction r with
  | zero =>
    intro idx logs ev t b h
    by_cases hd : analysisDone logs
    · simp [pollLoop, hd] at h
      exact h.2
    · simp [pollLoop, hd] at h
      exact h.2
  | succ r ih =>
    intro idx logs ev t b h
    by_cases hd : analysisDone logs
    · simp [pollLoop, hd] at h
      exact h.2
    · rcases hp : polls idx with e | ⟨s, body⟩
      · by_cases he : e.isHTTPError <;> simp [pollLoop, hd, hp, he] at h
      · by_cases hc : 400 ≤ s ∧ s < 600
        · simp [pollLoop, hd, hp, hc] at h
        · rcases body with msg | logs'
          · simp [pollLoop, hd, hp, hc] at h
          · exact ih (idx + 1) logs' (ev ++ [.sleep 60, .getPoll false]) t b
              (by simpa [pollLoop, hd, hp, hc] using h)

/-- The download step's trace always starts with the download GET. -/
theorem download_cgi_events_head (resp : ReqResult String) (wexn : Option PyExn)
    (output : String) (fs : FileSystem) :
    ∃ rest, (download_cgi resp wexn output fs).1 = Event.getDownload :: rest := by
  rcases resp with e | ⟨s, c⟩
  · by_cases he : e.isException
    · exact ⟨[.consolePrint downloadFailMsg], by simp [download_cgi, he]⟩
    · exact ⟨[], by simp [download_cgi, he]⟩
  · rcases wexn with _ | e
    · exact ⟨[.writeFile (output ++ ".cgi_results.zip")], by simp [download_cgi]⟩
    · by_cases he : e.isException
      · exact ⟨[.consolePrint downloadFailMsg], by simp [download_cgi, he]⟩
      · exact ⟨[], by simp [download_cgi, he]⟩

/-- If submission succeeds and `status_done` returns `True`, the pipeline
issues the download GET. -/
theorem getDownload_mem_query_cgi (w : World) (input : DataFrame)
    (genome output : String) (fs : FileSystem) (evS : List Event) (url : String)
    (evP : List Event)
    (hs : submit_query_cgi genome w.submit = (evS, .ok url))
    (hp : status_done w.polls = (evP, .ok true)) :
    Event.getDownload ∈ (query_cgi w input genome output fs).1 := by
  rcases download_cgi_events_head w.download w.downloadWriteExn output
      (prepare_cgi_query_file input output fs).1 with ⟨rest, hrest⟩
  unfold query_cgi
  rw [hs, hp]
  rcases hdl : download_cgi w.download w.downloadWriteExn output
      (prepare_cgi_query_file input output fs).1 with ⟨evD, fs2, dlRes⟩
  rw [hdl] at hrest
  rcases dlRes with e | u
  · simp [hdl, hrest]
  · rcases hmeta : add_cgi_metadata url output w.today fs2 with ⟨evM, metaRes⟩
    rcases metaRes with e | fs3 <;> simp [hdl, hmeta, hrest]

/-! ## Claim theorems -/

/-- C5: genome-build normalization maps "GRCh37" to "hg19" and "GRCh38" to
"hg38", and returns any other input string unchanged. -/
theorem hg_assembly_correct :
    hg_assembly "GRCh37" = "hg19" ∧ hg_assembly "GRCh38" = "hg38" ∧
    ∀ g : String, g ≠ "GRCh37" → g ≠ "GRCh38" → hg_assembly g = g := by
  refine ⟨by decide, by decide, fun g h37 h38 => ?_⟩
  simp only [hg_assembly]
  rw [if_neg h37, if_neg h38]

/-- Witness for C5 at the concrete input "GRCh36". -/
theorem hg_assembly_correct_witness : hg_assembly "GRCh36" = "GRCh36" :=
  hg_assembly_correct.2.2 "GRCh36" (by decide) (by decide)

/-- C4: an HTTP error status (400–599) on the submission request makes
`submit_query_cgi` raise `SystemExit`, and the whole pipeline then stops
after the submission POST: no poll and no download request is ever issued
(the resulting trace holds only the upload-file write, the log line and the
POST). -/
theorem submit_http_error_aborts (genome : String) (status : Nat)
    (body : Except String String) (h4 : 400 ≤ status) (h6 : status < 600)
    (polls : Nat → ReqResult (Except String (List String)))
    (dl : ReqResult String) (wexn : Option PyExn) (today : String)
    (input : DataFrame) (output : String) (fs : FileSystem) :
    submit_query_cgi genome (.conn status body)
      = ([.logInfo "Querying REST API", .postSubmit (hg_assembly genome)],
         .error (.systemExit "HTTPError")) ∧
    query_cgi ⟨.conn status body, polls, dl, wexn, today⟩ input genome output fs
      = ([.writeFile (output ++ ".cgi_input.tsv"), .logInfo "Querying REST API",
          .postSubmit (hg_assembly genome)], .error (.systemExit "HTTPError")) := by
  have hcond : 400 ≤ status ∧ status < 600 := ⟨h4, h6⟩
  constructor
  · simp [submit_query_cgi, hcond]
  · simp [query_cgi, prepare_cgi_query_file, submit_query_cgi, hcond]

/-- Witness for C4: submission answered with HTTP 500. -/
theorem submit_http_error_aborts_witness :
    submit_query_cgi "GRCh38" (.conn 500 (.ok "j"))
      = ([.logInfo "Querying REST API", .postSubmit (hg_assembly "GRCh38")],
         .error (.systemExit "HTTPError")) ∧
    query_cgi ⟨.conn 500 (.ok "j"), fun _ => .exn (.netError "n"),
        .exn (.netError "n"), none, "2023-01-01"⟩ ⟨["A"], []⟩ "GRCh38" "s" []
      = ([.writeFile ("s" ++ ".cgi_input.tsv"), .logInfo "Querying REST API",
          .postSubmit (hg_assembly "GRCh38")], .error (.systemExit "HTTPError")) :=
  submit_http_error_aborts "GRCh38" 500 (.ok "j") (by decide) (by decide)
    (fun _ => .exn (.netError "n")) (.exn (.netError "n")) none "2023-01-01"
    ⟨["A"], []⟩ "s" []

/-- C8: the very first poll request sits outside the `try`/`except` and
outside the retry loop: if the GET raises, the exception propagates as
itself (not as `SystemExit`), and an unparseable response propagates the
parse error; the trace shows no sleep and no further poll. -/
theorem first_poll_unprotected
    (polls : Nat → ReqResult (Except String (List String))) :
    (∀ e : PyExn, polls 0 = .exn e →
      status_done polls = ([.mountRetryAdapter, .getPoll false], .error e)) ∧
    (∀ (s : Nat) (msg : String), polls 0 = .conn s (.error msg) →
      status_done polls = ([.mountRetryAdapter, .getPoll false],
        .error (.jsonError msg))) := by
  constructor
  · intro e h
    simp [status_done, h]
  · intro s msg h
    simp [status_done, h]

/-- Poll oracle whose first request raises a network timeout. -/
def failFirstPolls : Nat → ReqResult (Except String (List String)) :=
  fun _ => .exn (.netError "timeout")

/-- Witness for C8: a network timeout on the first poll propagates as
itself. -/
theorem first_poll_unprotected_witness :
    status_done failFirstPolls
      = ([.mountRetryAdapter, .getPoll false], .error (.netError "timeout")) :=
  (first_poll_unprotected failFirstPolls).1 (.netError "timeout") rfl

/-- C9: when the archive is present, the metadata step extracts it and
writes `metadata.txt` in the extracted directory, whose content is exactly
the date line followed by the API-version line holding the job URL with its
last 20 characters removed. -/
theorem metadata_content (url output today : String) (fs : FileSystem)
    (hz : fsHas fs (output ++ ".cgi_results.zip") = true) :
    add_cgi_metadata url output today fs
      = ([.extractZip (output ++ ".cgi_results.zip") (output ++ ".cgi_results"),
          .writeFile ((output ++ ".cgi_results") ++ "/metadata.txt")],
         .ok (fsWrite fs ((output ++ ".cgi_results") ++ "/metadata.txt")
           ("CGI query date: " ++ today ++ "\nAPI version: "
             ++ url.take (url.length - 20)))) ∧
    fsRead (fsWrite fs ((output ++ ".cgi_results") ++ "/metadata.txt")
        ("CGI query date: " ++ today ++ "\nAPI version: "
          ++ url.take (url.length - 20)))
      ((output ++ ".cgi_results") ++ "/metadata.txt")
      = some ("CGI query date: " ++ today ++ "\nAPI version: "
          ++ url.take (url.length - 20)) := by
  constructor
  · simp [add_cgi_metadata, hz]
  · exact fsRead_fsWrite ..

/-- Witness for C9: a 25-character URL loses its last 20 characters. -/
theorem metadata_content_witness :
    add_cgi_metadata "0123456789012345678901234" "s" "d" [("s.cgi_results.zip", "z")]
      = ([.extractZip "s.cgi_results.zip" "s.cgi_results",
          .writeFile "s.cgi_results/metadata.txt"],
         .ok [("s.cgi_results/metadata.txt", "CGI query date: d\nAPI version: 01234"),
              ("s.cgi_results.zip", "z")]) := by
  have h := (metadata_content "0123456789012345678901234" "s" "d"
      [("s.cgi_results.zip", "z")] (by decide)).1
  rw [h]
  rfl

/-- C3: every `Exception` raised by the download GET or by the archive
write is swallowed — `download_cgi` prints a console message, leaves the
filesystem unchanged and returns normally — and with no archive on disk the
subsequent metadata/extraction step fails with a missing-file error. -/
theorem download_errors_swallowed (output url today : String) (fs : FileSystem)
    (e : PyExn) (he : e.isException = true)
    (hz : fsHas fs (output ++ ".cgi_results.zip") = false) :
    download_cgi (.exn e) none output fs
      = ([.getDownload, .consolePrint downloadFailMsg], fs, .ok ()) ∧
    (∀ (s : Nat) (content : String),
      download_cgi (.conn s content) (some e) output fs
        = ([.getDownload, .consolePrint downloadFailMsg], fs, .ok ())) ∧
    add_cgi_metadata url output today fs
      = ([], .error (.fileNotFound (output ++ ".cgi_results.zip"))) := by
  refine ⟨by simp [download_cgi, he], fun s content => by simp [download_cgi, he], ?_⟩
  simp [add_cgi_metadata, hz]

/-- Witness for C3: a connection error during download is swallowed, and
extraction on the empty filesystem then fails with the missing archive. -/
theorem download_errors_swallowed_witness :
    download_cgi (.exn (.netError "boom")) none "s" []
      = ([.getDownload, .consolePrint downloadFailMsg], [], .ok ()) ∧
    download_cgi (.conn 200 "bytes") (some (.other "disk full")) "s" []
      = ([.getDownload, .consolePrint downloadFailMsg], [], .ok ()) ∧
    add_cgi_metadata "u" "s" "d" []
      = ([], .error (.fileNotFound ("s" ++ ".cgi_results.zip"))) :=
  ⟨(download_errors_swallowed "s" "u" "d" [] (.netError "boom") rfl rfl).1,
   (download_errors_swallowed "s" "u" "d" [] (.other "disk full") rfl rfl).2.1 200 "bytes",
   (download_errors_swallowed "s" "u" "d" [] (.netError "boom") rfl rfl).2.2⟩

/-- The event trace of a polling run that never sees the completion marker:
the initial poll, then five sleep-60/poll rounds, then the timeout print. -/
def timeoutTrace : List Event :=
  [.mountRetryAdapter, .getPoll false,
   .sleep 60, .getPoll false, .sleep 60, .getPoll false,
   .sleep 60, .getPoll false, .sleep 60, .getPoll false,
   .sleep 60, .getPoll false, .consolePrint timeoutMsg]

/-- C1: if the completion marker never appears in any fetched log, the
poller performs exactly 5 polling attempts after the initial poll, each
preceded by a 60-unit sleep, then stops with the timeout message and without
raising, and the pipeline still proceeds to the download request. -/
theorem poller_timeout (polls : Nat → ReqResult (Except String (List String)))
    (logsF : Nat → List String)
    (hp : ∀ n, n ≤ 5 → polls n = .conn 200 (.ok (logsF n)))
    (hm : ∀ n, n ≤ 5 → analysisDone (logsF n) = false)
    (genome jobId today : String) (dl : ReqResult String) (wexn : Option PyExn)
    (input : DataFrame) (output : String) (fs : FileSystem) :
    status_done polls = (timeoutTrace, .ok true) ∧
    Event.getDownload ∈
      (query_cgi ⟨.conn 200 (.ok jobId), polls, dl, wexn, today⟩
        input genome output fs).1 := by
  have hsd : status_done polls = (timeoutTrace, .ok true) := by
    have h0 := hp 0 (by norm_num)
    have h1 := hp 1 (by norm_num)
    have h2 := hp 2 (by norm_num)
    have h3 := hp 3 (by norm_num)
    have h4 := hp 4 (by norm_num)
    have h5 := hp 5 (by norm_num)
    have m0 := hm 0 (by norm_num)
    have m1 := hm 1 (by norm_num)
    have m2 := hm 2 (by norm_num)
    have m3 := hm 3 (by norm_num)
    have m4 := hm 4 (by norm_num)
    have m5 := hm 5 (by norm_num)
    simp only [status_done, h0]
    rw [pollLoop_step polls 4 1 (logsF 0) (logsF 1) _ 200 m0 (by norm_num) h1,
        pollLoop_step polls 3 2 (logsF 1) (logsF 2) _ 200 m1 (by norm_num) h2,
        pollLoop_step polls 2 3 (logsF 2) (logsF 3) _ 200 m2 (by norm_num) h3,
        pollLoop_step polls 1 4 (logsF 3) (logsF 4) _ 200 m3 (by norm_num) h4,
        pollLoop_step polls 0 5 (logsF 4) (logsF 5) _ 200 m4 (by norm_num) h5,
        pollLoop_timeout polls 6 (logsF 5) _ m5]
    rfl
  refine ⟨hsd, ?_⟩
  exact getDownload_mem_query_cgi ⟨.conn 200 (.ok jobId), polls, dl, wexn, today⟩
    input genome output fs
    [.logInfo "Querying REST API", .postSubmit (hg_assembly genome)]
    ("https://www.cancergenomeinterpreter.org/api/v1/" ++ jobId) timeoutTrace
    (by simp [submit_query_cgi]) hsd

/-- Poll oracle whose logs never hold the completion marker. -/
def constPolls : Nat → ReqResult (Except String (List String)) :=
  fun _ => .conn 200 (.ok ["running"])

/-- Witness for C1: a run whose every poll reports "running". -/
theorem poller_timeout_witness :
    status_done constPolls = (timeoutTrace, .ok true) ∧
    Event.getDownload ∈
      (query_cgi ⟨.conn 200 (.ok "j"), constPolls, .conn 200 "z", none, "d"⟩
        ⟨["A"], []⟩ "GRCh38" "s" []).1 := by
  have hrun : analysisDone ["running"] = false := by decide
  exact poller_timeout constPolls (fun _ => ["running"]) (fun _ _ => rfl)
    (fun _ _ => hrun) "GRCh38" "j" "d" (.conn 200 "z") none ⟨["A"], []⟩ "s" []

/-- Poll oracle that reports a completed analysis on every request. -/
def donePolls : Nat → ReqResult (Except String (List String)) :=
  fun _ => .conn 200 (.ok ["Analysis done"])

/-- C7: the poller transitions to DONE exactly when the completion marker
substring occurs in the concatenation of the fetched log lines, independent
of surrounding text — `analysisDone` is the substring test, a marker hit
exits the loop at once with `True` and no further event, a miss with
attempts left continues with a sleep and a further poll, a log line with
arbitrary text around the marker exits at once, and a marker hit on the
initial poll ends `status_done` right there. -/
theorem poller_done_condition (polls : Nat → ReqResult (Except String (List String)))
    (r idx : Nat) (logs : List String) (ev : List Event) (pre post : String) :
    (analysisDone logs = true ↔ analysisDoneMarker.data <:+: (String.join logs).data) ∧
    (analysisDoneMarker.data <:+: (String.join logs).data →
      pollLoop polls r idx logs ev = (ev, .ok true)) ∧
    (¬ analysisDoneMarker.data <:+: (String.join logs).data →
      (pollLoop polls (r + 1) idx logs ev).1.take (ev.length + 2)
        = ev ++ [.sleep 60, .getPoll false]) ∧
    pollLoop polls r idx [pre ++ analysisDoneMarker ++ post] ev = (ev, .ok true) ∧
    (∀ s : Nat, polls 0 = .conn s (.ok logs) →
      analysisDoneMarker.data <:+: (String.join logs).data →
      status_done polls = ([.mountRetryAdapter, .getPoll false], .ok true)) := by
  refine ⟨by simp [analysisDone], ?_, ?_, ?_, ?_⟩
  · intro h
    exact pollLoop_done polls r idx logs ev (by simpa [analysisDone] using h)
  · intro h
    have hnd : analysisDone logs = false := by
      simpa [analysisDone] using h
    have key : ∃ t, (pollLoop polls (r + 1) idx logs ev).1
        = (ev ++ [.sleep 60, .getPoll false]) ++ t := by
      rcases hpo : polls idx with e | ⟨s, body⟩
      · by_cases he : e.isHTTPError
        · exact ⟨[], by simp [pollLoop, hnd, hpo, he]⟩
        · exact ⟨[], by simp [pollLoop, hnd, hpo, he]⟩
      · by_cases hc : 400 ≤ s ∧ s < 600
        · exact ⟨[], by simp [pollLoop, hnd, hpo, hc]⟩
        · rcases body with msg | logs'
          · exact ⟨[], by simp [pollLoop, hnd, hpo, hc]⟩
          · rcases pollLoop_events_ext polls r (idx + 1) logs'
                (ev ++ [.sleep 60, .getPoll false]) with ⟨t, ht⟩
            exact ⟨t, by simp [pollLoop, hnd, hpo, hc, ht]⟩
    rcases key with ⟨t, ht⟩
    rw [ht, show ev.length + 2 = (ev ++ [Event.sleep 60, Event.getPoll false]).length
          from by simp,
        List.take_left]
  · refine pollLoop_done polls r idx _ ev ?_
    have hinf : analysisDoneMarker.data
        <:+: (String.join [pre ++ analysisDoneMarker ++ post]).data := by
      refine ⟨pre.data, post.data, ?_⟩
      show pre.data ++ analysisDoneMarker.data ++ post.data
          = (String.join [pre ++ analysisDoneMarker ++ post]).data
      have hj : String.join [pre ++ analysisDoneMarker ++ post]
          = pre ++ analysisDoneMarker ++ post := rfl
      rw [hj]
      simp [List.append_assoc]
    simp only [analysisDone, decide_eq_true_eq]
    exact hinf
  · intro s h0 hin
    simp only [status_done, h0]
    exact pollLoop_done polls 5 1 logs _ (by simpa [analysisDone] using hin)

/-- Witness for C7: a log line with text around the marker exits the loop
at once. -/
theorem poller_done_condition_witness :
    pollLoop donePolls 5 1 ["log: Analysis done !"] [] = ([], .ok true) :=
  (poller_done_condition donePolls 5 1 ["log: Analysis done !"] [] "x" "y").2.1
    (by decide)

/-- C10: whenever `status_done` returns normally it returns `True` — the
timed-out case included — so after a successful submission the `if done:`
guard in `query_cgi` is always taken and the download request is issued. -/
theorem status_done_always_true (polls : Nat → ReqResult (Except String (List String)))
    (t : List Event) (b : Bool) (h : status_done polls = (t, .ok b))
    (genome jobId today : String) (dl : ReqResult String) (wexn : Option PyExn)
    (input : DataFrame) (output : String) (fs : FileSystem) :
    b = true ∧
    Event.getDownload ∈
      (query_cgi ⟨.conn 200 (.ok jobId), polls, dl, wexn, today⟩
        input genome output fs).1 := by
  have hb : b = true := by
    unfold status_done at h
    rcases hp : polls 0 with e | ⟨s, body⟩
    · rw [hp] at h; simp at h
    · rw [hp] at h
      rcases body with msg | logs
      · simp at h
      · exact pollLoop_ok_true polls 5 1 logs _ t b h
  subst hb
  refine ⟨rfl, ?_⟩
  exact getDownload_mem_query_cgi ⟨.conn 200 (.ok jobId), polls, dl, wexn, today⟩
    input genome output fs
    [.logInfo "Querying REST API", .postSubmit (hg_assembly genome)]
    ("https://www.cancergenomeinterpreter.org/api/v1/" ++ jobId) t
    (by simp [submit_query_cgi]) h

/-- Witness for C10: with every poll reporting completion, the download GET
appears in the pipeline trace. -/
theorem status_done_always_true_witness :
    Event.getDownload ∈
      (query_cgi ⟨.conn 200 (.ok "j"), donePolls, .conn 200 "z", none, "d"⟩
        ⟨["A"], []⟩ "GRCh38" "s" []).1 :=
  (status_done_always_true donePolls [.mountRetryAdapter, .getPoll false] true rfl
    "GRCh38" "j" "d" (.conn 200 "z") none ⟨["A"], []⟩ "s" []).2

/-- C2 (refuting the claim on the code): `status_done` builds and mounts the
retry-configured session, but no poll request goes through it — every poll
GET in every trace is a plain module-level `requests.get`
(`getPoll false`); a session-borne poll (`getPoll true`) never occurs. -/
theorem retry_session_unused (polls : Nat → ReqResult (Except String (List String))) :
    Event.mountRetryAdapter ∈ (status_done polls).1 ∧
    Event.getPoll true ∉ (status_done polls).1 := by
  constructor
  · unfold status_done
    rcases hp : polls 0 with e | ⟨s, body⟩
    · simp
    · rcases body with msg | logs
      · simp
      · rcases pollLoop_events_ext polls 5 1 logs
            [.mountRetryAdapter, .getPoll false] with ⟨t, ht⟩
        simp [ht]
  · unfold status_done
    rcases hp : polls 0 with e | ⟨s, body⟩
    · simp
    · rcases body with msg | logs
      · simp
      · intro hx
        rcases pollLoop_events_subset polls 5 1 logs
            [.mountRetryAdapter, .getPoll false] (Event.getPoll true) hx
          with h | h | h | h <;> simp at h

/-- C6: for a table with at least five columns, the prepared frame holds
exactly the first five original columns plus the `SAMPLE` column; its rows
are the input rows restricted to those five columns with exact duplicates
removed — `N` rows with `D` duplicates yield `N - D` rows; every row carries
the sample label; and the returned path names the file just written, whose
content is the serialized prepared frame. -/
theorem prepare_cgi_spec (input : DataFrame) (output : String)
    (h5 : 5 ≤ input.header.length) (fs : FileSystem) :
    (prepared_frame input output).header = input.header.take 5 ++ ["SAMPLE"] ∧
    (prepared_frame input output).header.length = 6 ∧
    (prepared_frame input output).rows.length
      = input.rows.length - dupCount (input.rows.map (List.take 5)) ∧
    (∀ r ∈ (prepared_frame input output).rows,
      ∃ r0 ∈ dropDuplicates (input.rows.map (List.take 5)), r = r0 ++ [output]) ∧
    (prepare_cgi_query_file input output fs).2 = output ++ ".cgi_input.tsv" ∧
    fsRead (prepare_cgi_query_file input output fs).1
        (prepare_cgi_query_file input output fs).2
      = some (renderTsv (prepared_frame input output)) := by
  refine ⟨rfl, ?_, ?_, ?_, rfl, ?_⟩
  · simp only [prepared_frame, List.length_append, List.length_take,
      List.length_cons, List.length_nil]
    omega
  · have hlen := dropDupAux_length (input.rows.map (List.take 5)) []
    simp only [prepared_frame, List.length_map, dropDuplicates, dupCount]
    simp only [List.length_map] at hlen ⊢
    omega
  · intro r hr
    simp only [prepared_frame, List.mem_map] at hr
    rcases hr with ⟨r0, hr0, rfl⟩
    exact ⟨r0, hr0, rfl⟩
  · exact fsRead_fsWrite ..

/-- The end-to-end example table: three rows, one exact duplicate. -/
def wdf : DataFrame :=
  ⟨["CHROM", "POS", "ID", "REF", "ALT"],
   [["chr1", "100", "rs1", "A", "T"],
    ["chr1", "100", "rs1", "A", "T"],
    ["chr2", "200", "rs2", "C", "G"]]⟩

/-- Witness for C6: 3 rows with 1 duplicate yield 2 rows, and the returned
path is `sample1.cgi_input.tsv`. -/
theorem prepare_cgi_spec_witness :
    (prepared_frame wdf "sample1").rows.length
      = wdf.rows.length - dupCount (wdf.rows.map (List.take 5)) ∧
    (prepare_cgi_query_file wdf "sample1" []).2 = "sample1" ++ ".cgi_input.tsv" ∧
    (prepared_frame wdf "sample1").rows.length = 2 :=
  ⟨(prepare_cgi_spec wdf "sample1" (by decide) []).2.2.1,
   (prepare_cgi_spec wdf "sample1" (by decide) []).2.2.2.2.1,
   by decide⟩

end CgiApi
